import Mathlib

/-!
Verification development for the supreme-memory transcription pipeline.

The repository has two stages:
- TranscriptionApp/transcribe.py: discovers .mp3 recordings under a
  date-partitioned AudioRecordings directory, transcribes each with an ASR
  model, and writes one .txt transcript per recording.
- TranscriptionAnalyzer/analyze.py: loads all .txt transcripts from a flat
  directory, builds a fixed analysis prompt, and calls a local LLM.

Filesystem paths are modelled as lists of path components
(so os.path.join is list append, Path.name is the last component and
Path.parent.name the component before it).  The external ASR and LLM models
are parameters: the ASR is a function from a path to Except (a raised
exception is the error case), the LLM is a function from a prompt and the
generation parameters to a response holding a list of choices.  Every
definition below is translated from the source files, except the ones whose
doc comment says they are modelled from the spec.
-/

/-- Text segments: startsSeg l m decides whether l is an initial segment
of m (character lists). -/
def startsSeg : List Char → List Char → Bool
  | [], _ => true
  | _ :: _, [] => false
  | a :: l, b :: m => (a == b) && startsSeg l m

/-- Decides whether the character list l occurs contiguously inside m. -/
def containsSeg (l : List Char) : List Char → Bool
  | [] => startsSeg l []
  | b :: m => startsSeg l (b :: m) || containsSeg l (b :: m).tail

/-- Proposition that l occurs contiguously inside m. -/
def IsSubseg (l m : List Char) : Prop := ∃ s t, s ++ l ++ t = m

/-- Replaces the first contiguous occurrence of needle in the last argument
by repl (used by the spec-modelled template substitution). -/
def replaceSeg (needle repl : List Char) : List Char → List Char
  | [] => []
  | b :: m =>
    if startsSeg needle (b :: m) then repl ++ (b :: m).drop needle.length
    else b :: replaceSeg needle repl m

/-- Embedding of Python "\n\n".join: joins a list of strings with a blank
line between consecutive entries. -/
def joinBlank : List String → String
  | [] => ""
  | [s] => s
  | s :: t :: rest => s ++ "\n\n" ++ joinBlank (t :: rest)

/-- Embedding of CPython PurePath.stem: the final component without its
suffix, where the suffix is the part of the name from its last dot onward
provided that dot is neither the first nor the last character. -/
def stem (name : String) : String :=
  match name.data.reverse.findIdx? (fun c => c == '.') with
  | none => name
  | some j =>
    let i := name.data.length - 1 - j
    if 0 < i ∧ i < name.data.length - 1 then String.mk (name.data.take i) else name

/-- Embedding of Python str.endswith: whether suffix is a suffix of s
(exact, case-sensitive comparison of the character data). -/
def endsSeg (s suffix : String) : Bool :=
  startsSeg suffix.data.reverse s.data.reverse

/-- Hard-coded data root of transcribe.py
(r"C:\Users\a\repos\supreme-memory\Data"), as path components. -/
def dataRoot : List String := ["C:", "Users", "a", "repos", "supreme-memory", "Data"]

/-- Directory scanned for recordings: os.path.join(dataRoot, "AudioRecordings"). -/
def audio_dir : List String := dataRoot ++ ["AudioRecordings"]

/-- Filesystem interface used by transcribe.py: the os functions it calls
(os.path.exists, os.path.isdir, os.listdir) plus os.path.isfile, which the
code never calls but the spec refers to. -/
structure AppFS where
  pathExists : List String → Bool
  isdir : List String → Bool
  isfile : List String → Bool
  listdir : List String → List String

/-- Embedding of get_audio_files (transcribe.py): if the AudioRecordings
directory is missing return []; otherwise, for each entry of the directory
that is itself a directory, collect every entry of that subdirectory whose
name ends in ".mp3", as a full path. -/
def get_audio_files (fs : AppFS) : List (List String) :=
  if fs.pathExists audio_dir = false then []
  else
    (fs.listdir audio_dir).flatMap (fun date_dir =>
      let date_path := audio_dir ++ [date_dir]
      if fs.isdir date_path then
        ((fs.listdir date_path).filter (fun file => endsSeg file ".mp3")).map
          (fun file => date_path ++ [file])
      else [])

/-- Embedding of the transcript path computation inside transcribe_audio:
join(dataRoot, "Transcriptions", Path(audio_file).parent.name,
Path(audio_file).stem + ".txt"). -/
def transcriptionPathFor (audio_file : List String) : List String :=
  let audio_date_dir := audio_file.dropLast.getLastD ""
  let transcriptions_dir := dataRoot ++ ["Transcriptions"]
  let date_dir := transcriptions_dir ++ [audio_date_dir]
  date_dir ++ [stem (audio_file.getLastD "") ++ ".txt"]

/-- Embedding of transcribe_audio (transcribe.py): calls the ASR model once;
on success writes the transcript text to the derived path and returns True,
on any exception returns False having written nothing (the whole body is
wrapped in try/except). Writes are returned as a list of (path, text). -/
def transcribe_audio (transcribeFn : List String → Except String String)
    (audio_file : List String) : Bool × List (List String × String) :=
  match transcribeFn audio_file with
  | Except.ok result => (true, [(transcriptionPathFor audio_file, result)])
  | Except.error _ => (false, [])

/-- Embedding of the batch loop of transcribe.py main: runs transcribe_audio
on every discovered file in order, counting successes; returns the success
count and all writes performed. -/
def runBatch (transcribeFn : List String → Except String String) :
    List (List String) → Nat × List (List String × String)
  | [] => (0, [])
  | audio_file :: rest =>
    let r := transcribe_audio transcribeFn audio_file
    let acc := runBatch transcribeFn rest
    ((if r.1 then 1 else 0) + acc.1, r.2 ++ acc.2)

/-- Whether the ASR call on a file succeeds (used to characterise runBatch). -/
def transcribeOk (transcribeFn : List String → Except String String)
    (audio_file : List String) : Bool :=
  match transcribeFn audio_file with
  | Except.ok _ => true
  | Except.error _ => false

/-- Error taxonomy of the analysis stage. -/
inductive AnalysisError where
  | templateError : AnalysisError
  | directoryNotFound : List String → AnalysisError
  | fileNotFound : List String → AnalysisError
deriving DecidableEq, Repr

/-- Filesystem state seen by analyze.py: the set of existing directories and
the files with their contents (paths as component lists). -/
structure AnalyzerFS where
  dirs : List (List String)
  files : List (List String × String)

/-- Well-formed filesystem: every file lies in an existing directory. -/
def AnalyzerFS.wf (fs : AnalyzerFS) : Prop :=
  ∀ pc ∈ fs.files, pc.1.dropLast ∈ fs.dirs

/-- Embedding of glob.glob(os.path.join(directory, "*.txt")): the existing
file paths that consist of the directory followed by exactly one further
component ending in ".txt".  Like Python glob, it does not require the
directory itself to exist: a missing directory simply matches no files. -/
def glob_txt (fs : AnalyzerFS) (directory : List String) : List (List String) :=
  (fs.files.map Prod.fst).filter (fun p =>
    match p.getLast? with
    | some name => (p.dropLast == directory) && endsSeg name ".txt"
    | none => false)

/-- Embedding of open(file_path).read(): fails when the path has no entry. -/
def readFile (fs : AnalyzerFS) (p : List String) : Except AnalysisError String :=
  match fs.files.lookup p with
  | some content => Except.ok content
  | none => Except.error (AnalysisError.fileNotFound p)

/-- One loaded transcription: \x7b'filename': ..., 'content': ...\x7d. -/
structure Transcription where
  filename : String
  content : String
deriving DecidableEq, Repr

/-- Embedding of TranscriptionAnalyzer.load_transcriptions: globs *.txt in
the directory and reads each matching file, pairing its basename with its
content. -/
def load_transcriptions (fs : AnalyzerFS) (directory : List String) :
    Except AnalysisError (List Transcription) :=
  (glob_txt fs directory).mapM (fun file_path =>
    (readFile fs file_path).map (fun content =>
      { filename := file_path.getLastD "", content := content }))

/-- Configuration of the Llama constructor call in
TranscriptionAnalyzer.__init__. -/
structure Llama where
  model_path : String
  n_ctx : Nat
  n_threads : Nat
deriving DecidableEq, Repr

/-- State built by TranscriptionAnalyzer.__init__. -/
structure TranscriptionAnalyzer where
  model : Llama
  encoder : String
deriving DecidableEq, Repr

/-- Embedding of TranscriptionAnalyzer.__init__(model_path): note that the
source passes the literal "models/llama-2-7b-chat.gguf" to Llama, not its
model_path parameter. -/
def TranscriptionAnalyzer.init (model_path : String) : TranscriptionAnalyzer :=
  { model := { model_path := "models/llama-2-7b-chat.gguf", n_ctx := 4096, n_threads := 4 }
    encoder := "all-MiniLM-L6-v2" }

/-- Embedding of the combined_text expression of analyze_transcriptions:
each transcription rendered as "File: \x7bfilename\x7d\n\x7bcontent\x7d",
joined by blank lines. -/
def combined_text (transcriptions : List Transcription) : String :=
  joinBlank (transcriptions.map (fun t => "File: " ++ t.filename ++ "\n" ++ t.content))

/-- Text of the prompt f-string before the combined transcriptions. -/
def promptHead : String :=
  "Please analyze the following transcriptions and create comprehensive notes about:\n1. Main topics discussed\n2. Key points and insights\n3. Action items or decisions made\n4. Important dates or deadlines mentioned\n\nTranscriptions:\n"

/-- Text of the prompt f-string after the combined transcriptions. -/
def promptTail : String :=
  "\n\nPlease provide a well-structured summary of the above content."

/-- Embedding of the prompt construction in analyze_transcriptions. -/
def analysisPrompt (transcriptions : List Transcription) : String :=
  "Please analyze the following transcriptions and create comprehensive notes about:\n1. Main topics discussed\n2. Key points and insights\n3. Action items or decisions made\n4. Important dates or deadlines mentioned\n\nTranscriptions:\n" ++ combined_text transcriptions ++ "\n\nPlease provide a well-structured summary of the above content."

/-- Generation parameters of the self.model(...) call. -/
structure LlamaParams where
  max_tokens : Nat
  temperature : Rat
  stop : List String
  echo : Bool
deriving DecidableEq, Repr

/-- Parameter values passed by analyze_transcriptions: max_tokens=2000,
temperature=0.7, stop=["</s>", "Human:", "Assistant:"], echo=False. -/
def llamaCallParams : LlamaParams :=
  { max_tokens := 2000, temperature := 7/10
    stop := ["</s>", "Human:", "Assistant:"], echo := false }

/-- One completion choice of the LLM response. -/
structure LlamaChoice where
  text : String
deriving DecidableEq, Repr

/-- Response of one LLM call: response['choices'] is a list of choices. -/
structure LlamaResponse where
  choices : List LlamaChoice
deriving DecidableEq, Repr

/-- Embedding of TranscriptionAnalyzer.analyze_transcriptions: builds the
prompt, calls the model once with the fixed parameters, and returns the
first choice's text stripped of surrounding whitespace (none when the
choices list is empty, where Python would raise IndexError).  The second
component records every (prompt, params) model call the body makes. -/
def analyze_transcriptions (generate : String → LlamaParams → LlamaResponse)
    (transcriptions : List Transcription) :
    Option String × List (String × LlamaParams) :=
  let prompt := analysisPrompt transcriptions
  let response := generate prompt llamaCallParams
  (response.choices.head?.map (fun c => c.text.trim), [(prompt, llamaCallParams)])

/-- Embedding of os.getenv('LLM_MODEL_PATH', 'models/llama-2-7b-chat.gguf')
in analyze.py main. -/
def resolveModelPath (env : Option String) : String :=
  env.getD "models/llama-2-7b-chat.gguf"

/-- Observable steps of analyze.py main, in order of occurrence. -/
inductive MainEvent where
  | print : String → MainEvent
  | initAnalyzer : String → MainEvent
  | loadTranscriptions : List String → MainEvent
  | raised : AnalysisError → MainEvent
  | llmAnalyze : MainEvent
  | saveAnalysis : List String → MainEvent
deriving DecidableEq, Repr

/-- Embedding of analyze.py main as its sequence of observable events:
print the CUDA message, resolve the model path from the environment, and if
that path does not exist print the three-line diagnostic and return;
otherwise construct the analyzer, load the transcriptions from
TranscriptionApp/output, and either report an empty batch or analyze and
save.  cuda is torch.cuda.is_available(), env the LLM_MODEL_PATH variable,
pathExists the os.path.exists check on the model path string. -/
def analyze_main (cuda : Bool) (env : Option String) (pathExists : String → Bool)
    (fs : AnalyzerFS) : List MainEvent :=
  let cudaEvt := MainEvent.print
    (if cuda then "CUDA is available. Using GPU acceleration."
     else "CUDA is not available. Using CPU only.")
  let model_path := resolveModelPath env
  if pathExists model_path = false then
    [cudaEvt,
     MainEvent.print ("Error: Model file not found at " ++ model_path),
     MainEvent.print "Please download a compatible model and set the LLM_MODEL_PATH environment variable.",
     MainEvent.print "You can download models from: https://huggingface.co/TheBloke/Llama-2-7B-Chat-GGUF"]
  else
    let transcriptions_dir : List String := ["TranscriptionApp", "output"]
    match load_transcriptions fs transcriptions_dir with
    | Except.error e =>
      [cudaEvt, MainEvent.initAnalyzer model_path,
       MainEvent.loadTranscriptions transcriptions_dir, MainEvent.raised e]
    | Except.ok transcriptions =>
      if transcriptions.isEmpty then
        [cudaEvt, MainEvent.initAnalyzer model_path,
         MainEvent.loadTranscriptions transcriptions_dir,
         MainEvent.print "No transcription files found!"]
      else
        [cudaEvt, MainEvent.initAnalyzer model_path,
         MainEvent.loadTranscriptions transcriptions_dir,
         MainEvent.print "Analyzing transcriptions...",
         MainEvent.llmAnalyze,
         MainEvent.saveAnalysis ["TranscriptionAnalyzer", "analysis_output.txt"],
         MainEvent.print "Analysis saved to TranscriptionAnalyzer/analysis_output.txt"]

/-- Modelled from the spec: the single designated placeholder of a prompt
template.  The single-transcription analysis tool (the CLI with the
positional transcription_file and the optional prompt-template override)
is part of this repository but not among the provided source files; the
spec names a single designated placeholder without fixing its spelling. -/
def designatedPlaceholder : String := "{transcription}"

/-- Modelled from the spec: PromptBuilder.build substitutes the combined
transcript text for the single designated placeholder of the template and
fails with TemplateError if the template lacks the placeholder.  The
single-transcription tool implementing this is not among the provided
source files. -/
def build (template : String) (combined : String) : Except AnalysisError String :=
  if containsSeg designatedPlaceholder.data template.data then
    Except.ok (String.mk (replaceSeg designatedPlaceholder.data combined.data template.data))
  else
    Except.error AnalysisError.templateError

/-- Modelled from the spec: the single-shot analysis run builds the prompt
from the template first and invokes the model only on a successfully built
prompt (template validation happens before any inference). -/
def runSingleAnalysis (generate : String → String) (template : String)
    (combined : String) : Except AnalysisError String :=
  (build template combined).map generate

/-- Appending strings appends their character data. -/
lemma string_data_append (a b : String) : (a ++ b).data = a.data ++ b.data := rfl

/-- C5: the transcript output path of an audio recording at
root/AudioRecordings/\x7bdatePartition\x7d/\x7bfileName\x7d is
root/Transcriptions/\x7bdatePartition\x7d/\x7bbaseName\x7d.txt, where
baseName strips the extension from fileName; since transcriptionPathFor is
a Lean function of the recording's path alone, the derivation is pure and
identical on repeated runs. -/
theorem transcript_path_pure (d f : String) :
    transcriptionPathFor (audio_dir ++ [d, f]) =
      dataRoot ++ ["Transcriptions", d, stem f ++ ".txt"] := rfl

/-- C6: when the AudioRecordings directory does not exist, get_audio_files
returns the empty list (and, being a total function, raises nothing). -/
theorem listRecordings_missing_root_empty (fs : AppFS)
    (h : fs.pathExists audio_dir = false) : get_audio_files fs = [] := by
  simp [get_audio_files, h]

/-- Concrete filesystem with no AudioRecordings directory. -/
def fsNoAudio : AppFS :=
  ⟨fun _ => false, fun _ => false, fun _ => false, fun _ => []⟩

/-- Witness for C6 at a concrete filesystem lacking the directory. -/
theorem listRecordings_missing_root_empty_witness :
    fsNoAudio.pathExists audio_dir = false ∧ get_audio_files fsNoAudio = [] :=
  ⟨rfl, listRecordings_missing_root_empty fsNoAudio rfl⟩

/-- C2: evaluating TranscriptionAnalyzer.__init__ at a custom model path
shows the constructor loads the hard-coded "models/llama-2-7b-chat.gguf"
and not the path passed in, so the path selected by LLM_MODEL_PATH is not
the one used to load the model. -/
theorem init_loads_hardcoded_path :
    (TranscriptionAnalyzer.init "/tmp/custom-model.gguf").model.model_path
        = "models/llama-2-7b-chat.gguf"
      ∧ (TranscriptionAnalyzer.init "/tmp/custom-model.gguf").model.model_path
        ≠ "/tmp/custom-model.gguf" := by
  refine ⟨rfl, ?_⟩
  decide

/-- C7: when the template lacks the designated placeholder, the single-shot
analysis run fails with TemplateError for every model, i.e. the failure is
decided by the template alone, before any model invocation. -/
theorem template_missing_placeholder_fails (template : String)
    (h : containsSeg designatedPlaceholder.data template.data = false) :
    ∀ generate combined,
      runSingleAnalysis generate template combined
        = Except.error AnalysisError.templateError := by
  intro generate combined
  simp [runSingleAnalysis, build, h, Except.map]

/-- Witness for C7 at a concrete placeholder-free template. -/
theorem template_missing_placeholder_fails_witness :
    containsSeg designatedPlaceholder.data ("Summarize the meeting.").data = false
      ∧ runSingleAnalysis (fun p => p) "Summarize the meeting." "hello"
        = Except.error AnalysisError.templateError :=
  ⟨by decide,
   template_missing_placeholder_fails "Summarize the meeting." (by decide)
     (fun p => p) "hello"⟩

/-- Concrete empty analyzer filesystem. -/
def fsEmptyA : AnalyzerFS := ⟨[], []⟩

/-- C1 counterexample: on a filesystem where the directory does not exist,
load_transcriptions returns Except.ok [] — an ordinary empty result — so it
does not fail with DirectoryNotFound as the claim states. -/
theorem load_missing_dir_no_error :
    ["missing"] ∉ fsEmptyA.dirs
      ∧ load_transcriptions fsEmptyA ["missing"] = Except.ok [] := by
  refine ⟨?_, rfl⟩
  decide

/-- C1 amended: on every well-formed filesystem, load_transcriptions on a
nonexistent directory returns Except.ok [] (the glob matches nothing), not
a DirectoryNotFound error. -/
theorem load_missing_dir_ok_empty (fs : AnalyzerFS) (d : List String)
    (hwf : fs.wf) (hd : d ∉ fs.dirs) :
    load_transcriptions fs d = Except.ok [] := by
  have hglob : glob_txt fs d = [] := by
    rw [glob_txt, List.filter_eq_nil_iff]
    intro p hp
    simp only [List.mem_map] at hp
    obtain ⟨pc, hpc, rfl⟩ := hp
    have hdir := hwf pc hpc
    cases hlast : pc.1.getLast? with
    | none => simp [hlast]
    | some name =>
      simp only [hlast, Bool.and_eq_true, beq_iff_eq, not_and]
      intro hbeq
      exact absurd (hbeq ▸ hdir) hd
  rw [load_transcriptions, hglob]
  rfl

/-- Concrete analyzer filesystem whose only file lives elsewhere. -/
def fsOtherA : AnalyzerFS := ⟨[["other"]], [(["other", "a.txt"], "x")]⟩

/-- Witness for the amended C1 at a concrete well-formed filesystem. -/
theorem load_missing_dir_ok_empty_witness :
    AnalyzerFS.wf fsOtherA ∧ ["missing"] ∉ fsOtherA.dirs
      ∧ load_transcriptions fsOtherA ["missing"] = Except.ok [] := by
  have hwf : AnalyzerFS.wf fsOtherA := by
    intro pc hpc
    simp only [fsOtherA, List.mem_singleton] at hpc
    subst hpc
    decide
  have hd : (["missing"] : List String) ∉ fsOtherA.dirs := by decide
  exact ⟨hwf, hd, load_missing_dir_ok_empty fsOtherA ["missing"] hwf hd⟩

/-- A contiguous occurrence survives surrounding context. -/
lemma IsSubseg.within (l x m y : List Char) (h : IsSubseg l m) :
    IsSubseg l (x ++ m ++ y) := by
  obtain ⟨a, b, rfl⟩ := h
  exact ⟨x ++ a, b ++ y, by simp [List.append_assoc]⟩

/-- Every member of a blank-line join occurs contiguously in the join. -/
lemma subseg_of_mem_joinBlank (s : String) (l : List String) (h : s ∈ l) :
    IsSubseg s.data (joinBlank l).data := by
  induction l with
  | nil => cases h
  | cons x rest ih =>
    cases rest with
    | nil =>
      have hx : s = x := by simpa using h
      subst hx
      exact ⟨[], [], by simp [joinBlank]⟩
    | cons y rest2 =>
      rcases List.mem_cons.mp h with hx | hmem
      · subst hx
        refine ⟨[], ("\n\n" ++ joinBlank (y :: rest2)).data, ?_⟩
        simp [joinBlank, string_data_append, List.append_assoc]
      · obtain ⟨a, b, hab⟩ := ih hmem
        refine ⟨(x ++ "\n\n").data ++ a, b, ?_⟩
        simp only [joinBlank, string_data_append, List.append_assoc, ← hab]

/-- C4: the constructed prompt is the fixed template text around the
combined transcriptions, the combination renders each entry as
"File: \x7bfilename\x7d\n\x7bcontent\x7d" with consecutive entries joined
by a blank line, and consequently each transcript's content appears in the
prompt directly after its file-name header. -/
theorem prompt_contains_each_transcript (ts : List Transcription) (h : ts ≠ []) :
    analysisPrompt ts = promptHead ++ combined_text ts ++ promptTail
      ∧ combined_text ts
          = joinBlank (ts.map (fun t => "File: " ++ t.filename ++ "\n" ++ t.content))
      ∧ ∀ t ∈ ts,
          IsSubseg ("File: " ++ t.filename ++ "\n" ++ t.content).data
            (analysisPrompt ts).data := by
  refine ⟨rfl, rfl, ?_⟩
  intro t ht
  have hmem := List.mem_map_of_mem (fun t => "File: " ++ t.filename ++ "\n" ++ t.content) ht
  have hsub := subseg_of_mem_joinBlank _ _ hmem
  have hx := IsSubseg.within _ promptHead.data _ promptTail.data hsub
  have hdata : (analysisPrompt ts).data
      = promptHead.data ++ (joinBlank (ts.map (fun t => "File: " ++ t.filename ++ "\n" ++ t.content))).data ++ promptTail.data := by
    rw [show analysisPrompt ts = promptHead ++ combined_text ts ++ promptTail from rfl,
        string_data_append, string_data_append, combined_text]
  rw [hdata]
  exact hx

/-- Concrete one-element transcript batch. -/
def tsEx : List Transcription := [{ filename := "a.txt", content := "hello" }]

/-- Witness for C4 at a concrete one-element batch. -/
theorem prompt_contains_each_transcript_witness :
    tsEx ≠ []
      ∧ (analysisPrompt tsEx = promptHead ++ combined_text tsEx ++ promptTail
        ∧ combined_text tsEx
            = joinBlank (tsEx.map (fun t => "File: " ++ t.filename ++ "\n" ++ t.content))
        ∧ ∀ t ∈ tsEx,
            IsSubseg ("File: " ++ t.filename ++ "\n" ++ t.content).data
              (analysisPrompt tsEx).data) :=
  ⟨by simp [tsEx], prompt_contains_each_transcript tsEx (by simp [tsEx])⟩

/-- C8: analyze_transcriptions performs exactly one model call, on the
constructed prompt with max_tokens 2000, temperature 0.7 and the fixed stop
sequences, and returns the first completion's text with surrounding
whitespace trimmed. -/
theorem analyze_invokes_llm_once (generate : String → LlamaParams → LlamaResponse)
    (ts : List Transcription) (c : LlamaChoice) (rest : List LlamaChoice)
    (h : (generate (analysisPrompt ts) llamaCallParams).choices = c :: rest) :
    (analyze_transcriptions generate ts).2 = [(analysisPrompt ts, llamaCallParams)]
      ∧ llamaCallParams.max_tokens = 2000
      ∧ llamaCallParams.temperature = 7/10
      ∧ llamaCallParams.stop = ["</s>", "Human:", "Assistant:"]
      ∧ (analyze_transcriptions generate ts).1 = some c.text.trim := by
  refine ⟨rfl, rfl, rfl, rfl, ?_⟩
  simp [analyze_transcriptions, h]

/-- Concrete model returning one completion. -/
def genEx : String → LlamaParams → LlamaResponse :=
  fun _ _ => { choices := [{ text := "  hello  " }] }

/-- Witness for C8 at a concrete model and empty batch. -/
theorem analyze_invokes_llm_once_witness :
    (genEx (analysisPrompt []) llamaCallParams).choices
        = ({ text := "  hello  " } : LlamaChoice) :: []
      ∧ ((analyze_transcriptions genEx []).2 = [(analysisPrompt [], llamaCallParams)]
        ∧ llamaCallParams.max_tokens = 2000
        ∧ llamaCallParams.temperature = 7/10
        ∧ llamaCallParams.stop = ["</s>", "Human:", "Assistant:"]
        ∧ (analyze_transcriptions genEx []).1
            = some (LlamaChoice.text { text := "  hello  " }).trim) :=
  ⟨rfl, analyze_invokes_llm_once genEx [] { text := "  hello  " } [] rfl⟩

/-- Characterisation of the batch loop: the success count is the number of
recordings whose ASR call succeeds, and exactly the successfully
transcribed recordings have a transcript written, at their derived path. -/
lemma runBatch_eq (tf : List String → Except String String)
    (files : List (List String)) :
    runBatch tf files
      = ((files.filter (transcribeOk tf)).length,
         files.filterMap (fun f =>
           match tf f with
           | Except.ok t => some (transcriptionPathFor f, t)
           | Except.error _ => none)) := by
  induction files with
  | nil => rfl
  | cons f rest ih =>
    cases htf : tf f with
    | ok t =>
      simp [runBatch, transcribe_audio, transcribeOk, htf, ih,
        List.filter_cons, List.filterMap_cons]
      omega
    | error e =>
      simp [runBatch, transcribe_audio, transcribeOk, htf, ih,
        List.filter_cons, List.filterMap_cons]

/-- C3: when the ASR call fails on exactly one recording of the batch (the
one between pre and post) and succeeds on all others, the loop finishes (it
is a total function, mirroring the try/except around each item), reports
N-1 successes, writes a transcript for every other recording, and writes
none for the failing one. -/
theorem batch_fault_isolation (tf : List String → Except String String)
    (pre post : List (List String)) (bad : List String) (e : String)
    (hbad : tf bad = Except.error e)
    (hok : ∀ f ∈ pre ++ post, ∃ t, tf f = Except.ok t)
    (hnodup : ((pre ++ bad :: post).map transcriptionPathFor).Nodup) :
    (runBatch tf (pre ++ bad :: post)).1 = (pre ++ bad :: post).length - 1
      ∧ (∀ f ∈ pre ++ post,
          transcriptionPathFor f ∈ (runBatch tf (pre ++ bad :: post)).2.map Prod.fst)
      ∧ transcriptionPathFor bad ∉ (runBatch tf (pre ++ bad :: post)).2.map Prod.fst := by
  rw [runBatch_eq]
  have hokTrue : ∀ f ∈ pre ++ post, transcribeOk tf f = true := by
    intro f hf
    obtain ⟨t, ht⟩ := hok f hf
    simp [transcribeOk, ht]
  refine ⟨?_, ?_, ?_⟩
  · have hbadFalse : transcribeOk tf bad = false := by simp [transcribeOk, hbad]
    rw [List.filter_append, List.filter_cons, hbadFalse]
    rw [List.filter_eq_self.mpr (fun a ha => hokTrue a (List.mem_append_left post ha)),
        List.filter_eq_self.mpr (fun a ha => hokTrue a (List.mem_append_right pre ha))]
    simp
  · intro f hf
    obtain ⟨t, ht⟩ := hok f hf
    rw [List.map_filterMap, List.mem_filterMap]
    refine ⟨f, ?_, by simp [ht]⟩
    rcases List.mem_append.mp hf with hl | hr
    · exact List.mem_append_left _ hl
    · exact List.mem_append_right _ (List.mem_cons_of_mem bad hr)
  · rw [List.map_filterMap, List.mem_filterMap]
    rintro ⟨a, ha, hg⟩
    cases hta : tf a with
    | error e2 => simp [hta] at hg
    | ok t =>
      simp only [hta, Option.map_some] at hg
      have heq : transcriptionPathFor a = transcriptionPathFor bad := by
        simpa using hg
      have hab : a = bad :=
        List.inj_on_of_nodup_map hnodup ha
          (List.mem_append_right pre (List.mem_cons_self bad post)) heq
      rw [hab, hbad] at hta
      cases hta

/-- Concrete recording that transcribes successfully. -/
def recA : List String := audio_dir ++ ["2024-01-01", "a.mp3"]

/-- Concrete recording on which the ASR model raises. -/
def recB : List String := audio_dir ++ ["2024-01-01", "b.mp3"]

/-- Concrete ASR model failing exactly on recB. -/
def tfEx : List String → Except String String :=
  fun f => if f = recB then Except.error "decode error" else Except.ok "text"

/-- Witness for C3 with a two-recording batch whose second item fails. -/
theorem batch_fault_isolation_witness :
    tfEx recB = Except.error "decode error"
      ∧ (∀ f ∈ [recA] ++ ([] : List (List String)), ∃ t, tfEx f = Except.ok t)
      ∧ (([recA] ++ recB :: []).map transcriptionPathFor).Nodup
      ∧ ((runBatch tfEx ([recA] ++ recB :: [])).1 = ([recA] ++ recB :: []).length - 1
        ∧ (∀ f ∈ [recA] ++ ([] : List (List String)),
            transcriptionPathFor f
              ∈ (runBatch tfEx ([recA] ++ recB :: [])).2.map Prod.fst)
        ∧ transcriptionPathFor recB
            ∉ (runBatch tfEx ([recA] ++ recB :: [])).2.map Prod.fst) := by
  have h1 : tfEx recB = Except.error "decode error" := by simp [tfEx]
  have h2 : ∀ f ∈ [recA] ++ ([] : List (List String)), ∃ t, tfEx f = Except.ok t := by
    intro f hf
    have hfa : f = recA := by simpa using hf
    subst hfa
    refine ⟨"text", ?_⟩
    rw [tfEx, if_neg (by decide)]
  have h3 : (([recA] ++ recB :: []).map transcriptionPathFor).Nodup := by decide
  exact ⟨h1, h2, h3, batch_fault_isolation tfEx [recA] [] recB "decode error" h1 h2 h3⟩

/-- Path of a directory whose name ends in ".mp3", used to refute C9. -/
def trapPath : List String := audio_dir ++ ["2024-01-01", "trap.mp3"]

/-- Concrete filesystem in which the only partition entry is a directory
(not a file) named trap.mp3. -/
def fsTrap : AppFS where
  pathExists := fun _ => true
  isdir := fun p =>
    p == audio_dir || p == audio_dir ++ ["2024-01-01"] || p == trapPath
  isfile := fun _ => false
  listdir := fun p =>
    if p == audio_dir then ["2024-01-01"]
    else if p == audio_dir ++ ["2024-01-01"] then ["trap.mp3"]
    else []

/-- C9 counterexample: get_audio_files returns an entry that is a directory
and not a file (it only tests the ".mp3" suffix inside a partition, never
os.path.isfile), so the returned sequence does not contain only files. -/
theorem get_audio_files_includes_directory_entry :
    trapPath ∈ get_audio_files fsTrap
      ∧ fsTrap.isfile trapPath = false
      ∧ fsTrap.isdir trapPath = true := by
  refine ⟨?_, rfl, by decide⟩
  decide

/-- C9 amended: with the AudioRecordings directory present, the returned
sequence holds exactly the paths audio_dir/d/f such that d is an entry of
audio_dir naming a directory and f is an entry of that directory whose name
ends in the case-sensitive suffix ".mp3" — regardless of whether that entry
is itself a file or a directory.  Non-directory partition entries
contribute nothing and no path goes deeper than audio_dir/d/f. -/
theorem get_audio_files_mem (fs : AppFS) (h : fs.pathExists audio_dir = true)
    (p : List String) :
    p ∈ get_audio_files fs
      ↔ ∃ d f, d ∈ fs.listdir audio_dir
          ∧ fs.isdir (audio_dir ++ [d]) = true
          ∧ f ∈ fs.listdir (audio_dir ++ [d])
          ∧ endsSeg f ".mp3" = true
          ∧ p = audio_dir ++ [d, f] := by
  simp only [get_audio_files, h, Bool.true_eq_false, if_false, List.mem_flatMap]
  constructor
  · rintro ⟨d, hd, hp⟩
    by_cases hdir : fs.isdir (audio_dir ++ [d]) = true
    · rw [if_pos hdir] at hp
      simp only [List.mem_map, List.mem_filter] at hp
      obtain ⟨f, ⟨hf, hext⟩, rfl⟩ := hp
      exact ⟨d, f, hd, hdir, hf, hext, by simp⟩
    · rw [if_neg hdir] at hp
      exact absurd hp (List.not_mem_nil p)
  · rintro ⟨d, f, hd, hdir, hf, hext, rfl⟩
    refine ⟨d, hd, ?_⟩
    rw [if_pos hdir]
    simp only [List.mem_map, List.mem_filter]
    exact ⟨f, ⟨hf, hext⟩, by simp⟩

/-- Witness for the amended C9 at the concrete filesystem fsTrap. -/
theorem get_audio_files_mem_witness :
    fsTrap.pathExists audio_dir = true
      ∧ (trapPath ∈ get_audio_files fsTrap
          ↔ ∃ d f, d ∈ fsTrap.listdir audio_dir
              ∧ fsTrap.isdir (audio_dir ++ [d]) = true
              ∧ f ∈ fsTrap.listdir (audio_dir ++ [d])
              ∧ endsSeg f ".mp3" = true
              ∧ trapPath = audio_dir ++ [d, f]) :=
  ⟨rfl, get_audio_files_mem fsTrap rfl trapPath⟩

/-- C10: when the resolved model path does not exist, analyze.py main emits
the diagnostic naming the missing path and every event of the run is a
plain print — in particular no analyzer construction, no transcript
loading, no model call and no save occur — and main returns normally (the
embedding returns a value; the Python function returns None, so the
process exits with status 0). -/
theorem main_missing_model (cuda : Bool) (env : Option String)
    (pathExists : String → Bool) (fs : AnalyzerFS)
    (h : pathExists (resolveModelPath env) = false) :
    MainEvent.print ("Error: Model file not found at " ++ resolveModelPath env)
        ∈ analyze_main cuda env pathExists fs
      ∧ IsSubseg (resolveModelPath env).data
          ("Error: Model file not found at " ++ resolveModelPath env).data
      ∧ ∀ e ∈ analyze_main cuda env pathExists fs, ∃ m, e = MainEvent.print m := by
  have hmain : analyze_main cuda env pathExists fs =
      [MainEvent.print
        (if cuda then "CUDA is available. Using GPU acceleration."
         else "CUDA is not available. Using CPU only."),
       MainEvent.print ("Error: Model file not found at " ++ resolveModelPath env),
       MainEvent.print "Please download a compatible model and set the LLM_MODEL_PATH environment variable.",
       MainEvent.print "You can download models from: https://huggingface.co/TheBloke/Llama-2-7B-Chat-GGUF"] := by
    rw [analyze_main, if_pos h]
  rw [hmain]
  refine ⟨by simp, ⟨("Error: Model file not found at ").data, [], by simp [string_data_append]⟩, ?_⟩
  intro e he
  simp only [List.mem_cons, List.not_mem_nil, or_false] at he
  rcases he with h1 | h1 | h1 | h1 <;> exact ⟨_, h1⟩

/-- Witness for C10 at a concrete environment with no model file. -/
theorem main_missing_model_witness :
    (fun _ => false : String → Bool) (resolveModelPath none) = false
      ∧ (MainEvent.print
            ("Error: Model file not found at " ++ resolveModelPath none)
          ∈ analyze_main false none (fun _ => false) fsEmptyA
        ∧ IsSubseg (resolveModelPath none).data
            ("Error: Model file not found at " ++ resolveModelPath none).data
        ∧ ∀ e ∈ analyze_main false none (fun _ => false) fsEmptyA,
            ∃ m, e = MainEvent.print m) :=
  ⟨rfl, main_missing_model false none (fun _ => false) fsEmptyA rfl⟩
